import Mathlib

/-!
Shallow embedding of the data-acquisition core of the stock-trading
repository (src/data/api_manager.py, src/data/database.py,
src/data/data_manager.py), together with theorems settling the frozen
claims about it.

Conventions of the embedding:
* machine time and tick timestamps are `Int` (Python floats/ints used only
  for ordering and subtraction here);
* dates are `Nat` day numbers with `weekday d = d % 7`, `0` being a Monday
  (mirroring Python's `date.weekday()` where Saturday = 5, Sunday = 6);
* Python exceptions are an explicit `PyErr` value threaded through results;
  a Python function that can `return None` as a value (distinct from
  raising) returns an `Option` inside the non-error side;
* the MySQL store is an explicit `DBState` record of table rows; each SQL
  statement of the source becomes one `WriteOp`.
-/

/-- Exceptions and failure modes that the translated Python code can raise
or propagate. `indexError` models `list[-1]` on an empty list,
`typeError` models `list.extend(None)` and `None[...]`, `dbError` a MySQL
statement failure, `apiFailure` a day-level fetch that raised, and
`fuelExhausted` marks recursion fuel running out (never hit in any theorem
below). -/
inductive PyErr where
  | indexError
  | typeError
  | dbError
  | apiFailure
  | fuelExhausted
  deriving DecidableEq, Repr

namespace ApiManager

/-- Class constant `APIManager.MAX_REQUEST_PER_MINUTE` (api_manager.py line 20). -/
def MAX_REQUEST_PER_MINUTE : Nat := 200

/-- Class constant `APIManager.STALL_TIME_UPON_MAX_REQUESTS` (api_manager.py line 21). -/
def STALL_TIME_UPON_MAX_REQUESTS : Int := 3

/-- Class constant `APIManager.MAX_ATTEMPTS` (api_manager.py line 22). -/
def MAX_ATTEMPTS : Nat := 5

/-- State of `APIManager._count_recent_requests` (api_manager.py lines 28-39):
prunes `self._recent_requests` to the timestamps less than 60 seconds old and
returns the pruned list together with its length. -/
def countRecentRequests (now : Int) (recent : List Int) : List Int × Nat :=
  let pruned := recent.filter (fun r => now - r < 60)
  (pruned, pruned.length)

/-- The stall loop at the top of `APIManager._request` (api_manager.py lines
63-65): while the count of recent requests is at least
`MAX_REQUEST_PER_MINUTE`, sleep `STALL_TIME_UPON_MAX_REQUESTS` seconds and
re-check.  Wall-clock time advances by the stall time on each iteration.
Returns `(admission time, pruned window, number of stalls)`; `none` when the
`fuel` bound on loop iterations is exceeded.  Crucially, the source body of
`_request` (lines 41-88) contains no statement appending the admitted
request's timestamp to `self._recent_requests`; the only mutation of that
list anywhere in the class is the pruning inside
`_count_recent_requests`. -/
def stallLoop : Nat → Int → List Int → Nat → Option (Int × List Int × Nat)
  | 0, _, _, _ => none
  | fuel + 1, now, recent, stalls =>
    let (pruned, count) := countRecentRequests now recent
    if MAX_REQUEST_PER_MINUTE ≤ count then
      stallLoop fuel (now + STALL_TIME_UPON_MAX_REQUESTS) pruned (stalls + 1)
    else
      some (now, pruned, stalls)

/-- Run a sequence of `_request` admissions, one per entry of `times` (the
wall-clock instant at which each request arrives), starting from window
state `recent`.  Each admission runs the stall loop; afterwards the window
is exactly the pruned list, because the source never appends the admitted
timestamp.  Returns the final window and the total number of stalls. -/
def runAdmissions (fuel : Nat) : List Int → List Int → Nat → Option (List Int × Nat)
  | [], recent, stalls => some (recent, stalls)
  | now :: rest, recent, stalls =>
    match stallLoop fuel now recent 0 with
    | none => none
    | some (_, pruned, s) => runAdmissions fuel rest pruned (stalls + s)

/-- Response of one HTTP attempt, as classified by `_request` (api_manager.py
lines 72-75): `isList` models `type(json) == list`, `success` models
`json.get('success', True)`. -/
structure Response where
  status : Nat
  isList : Bool
  success : Bool
  deriving DecidableEq, Repr

/-- Success test of `_request`: HTTP 200 and the body is a list or carries no
explicit logical-failure flag (api_manager.py lines 72-74). -/
def responseOk (r : Response) : Bool :=
  r.status == 200 && (r.isList || r.success)

/-- Retry recursion of `APIManager._request` (api_manager.py lines 41-88).
`endpoint i` is the response to the `i`-th attempt.  Returns
`(total attempts performed, inter-attempt delays in seconds, result)`; the
result is `none` exactly when the budget is exhausted without a successful
response (the source falls off the end of the function, returning Python
`None`).  On a retryable failure with `attemptsLeft > 0` the source sleeps
a flat 5 seconds (line 84) and recurses with `attempts_left - 1`. -/
def requestAttempts (endpoint : Nat → Response) : Nat → Nat → Nat × List Nat × Option Response
  | attemptsLeft, idx =>
    let r := endpoint idx
    if responseOk r then
      (1, [], some r)
    else
      match attemptsLeft with
      | 0 => (1, [], none)
      | n + 1 =>
        let (m, ds, res) := requestAttempts endpoint n (idx + 1)
        (m + 1, 5 :: ds, res)

/-- Entry point of `_request` with the default budget: `attempts_left`
defaults to `MAX_ATTEMPTS - 1` (api_manager.py lines 58-59). -/
def request (endpoint : Nat → Response) : Nat × List Nat × Option Response :=
  requestAttempts endpoint (MAX_ATTEMPTS - 1) 0

/-- Record of one page item as used by pagination; only the timestamp key
`'t'` is consulted by `_request_batch` (api_manager.py line 125). -/
structure BatchItem where
  t : Int
  deriving DecidableEq, Repr

/-- Page returned by one `_request` inside `_request_batch`: the JSON keys
`results` and `results_count` (api_manager.py lines 121-126). -/
structure Page where
  results : List BatchItem
  resultsCount : Nat
  deriving DecidableEq, Repr

/-- Translation of `APIManager._request_batch` (api_manager.py lines
90-129).  `server cursor` is the page the (retried) `_request` of lines
110-115 produces for pagination cursor `cursor`; `none` means that request
exhausted its retries and returned Python `None`.  Result: the value of the
call (an `Option` result inside `Except`, where `.ok none` is the source's
`return None` on line 117 and `.error e` is a raised exception) paired with
the number of page requests issued.

Line-by-line correspondence:
* `result = response['results'][int(timestamp > 0):]` — drop the first
  record when the cursor is positive (line 121);
* `last_timestamp = result[-1]['t']` — evaluated unconditionally, before
  the `results_count` check; on an empty `result` this raises `IndexError`
  (line 125);
* `if response['results_count'] >= limit: result.extend(...)` — recursion
  with the last timestamp as the next cursor (lines 126-127); if the
  recursive call returns Python `None`, `list.extend(None)` raises
  `TypeError`. -/
def requestBatch (server : Int → Option Page) (limit : Nat) :
    Nat → Int → Except PyErr (Option (List BatchItem)) × Nat
  | 0, _ => (.error .fuelExhausted, 0)
  | fuel + 1, timestamp =>
    match server timestamp with
    | none => (.ok none, 1)
    | some response =>
      let result :=
        if timestamp > 0 then response.results.drop 1 else response.results
      match result.getLast? with
      | none => (.error .indexError, 1)
      | some last =>
        if limit ≤ response.resultsCount then
          match requestBatch server limit fuel last.t with
          | (.ok none, n) => (.error .typeError, n + 1)
          | (.ok (some rest), n) => (.ok (some (result ++ rest)), n + 1)
          | (.error e, n) => (.error e, n + 1)
        else
          (.ok (some result), 1)

end ApiManager

namespace Db

/-- Row of the `trades` table as stored by `store_trades` for
`data_type = 'trades'` (database.py lines 257-272): timestamp, price,
volume.  Prices are embedded as integers (e.g. cents); nothing below
depends on their scale. -/
structure TradeRow where
  timestamp : Int
  price : Int
  volume : Int
  deriving DecidableEq, Repr

/-- Row of the `quotes` table as stored by `store_trades` for
`data_type = 'quotes'` (database.py lines 259-272). -/
structure QuoteRow where
  timestamp : Int
  askPrice : Int
  askVolume : Int
  bidPrice : Int
  bidVolume : Int
  deriving DecidableEq, Repr

/-- One SQL statement issued by `Database.store_trades`, at row granularity:
either the `INSERT INTO summary` of `_store_summary` (database.py lines
234-241) or the insertion of one tick row into the `trades`/`quotes` table
(lines 265-272).  `α` is the row type of the tick table (`TradeRow` or
`QuoteRow`). -/
inductive WriteOp (α : Type) where
  | summary (tableName : String) (tickerId : Nat) (date : Nat)
  | tick (tableName : String) (tickerId : Nat) (date : Nat) (row : α)
  deriving DecidableEq, Repr

/-- Storage state: the `summary` presence-index table (rows
`(table_name, ticker_id, date)`, database.py line 236) and the tick table
(rows `(table_name, ticker_id, date, tick)`). -/
structure DBState (α : Type) where
  summary : List (String × Nat × Nat)
  ticks : List (String × Nat × Nat × α)
  deriving DecidableEq, Repr

/-- Empty database. -/
def DBState.empty (α : Type) : DBState α := ⟨[], []⟩

/-- Apply one durably-executed SQL statement to the storage state. -/
def applyOp {α : Type} (s : DBState α) : WriteOp α → DBState α
  | .summary t i d => { s with summary := s.summary ++ [(t, i, d)] }
  | .tick t i d r => { s with ticks := s.ticks ++ [(t, i, d, r)] }

/-- Apply a statement sequence in order. -/
def applyOps {α : Type} (s : DBState α) : List (WriteOp α) → DBState α
  | [] => s
  | op :: ops => applyOps (applyOp s op) ops

/-- Statement sequence issued by `Database.store_trades` (database.py lines
243-272), in source order: first `_store_summary(data_type, ticker_id,
date)` (line 255), then one insertion per tick row (lines 265-272). -/
def storeTradesOps {α : Type} (dataType : String) (tickerId date : Nat)
    (trades : List α) : List (WriteOp α) :=
  WriteOp.summary dataType tickerId date ::
    trades.map (WriteOp.tick dataType tickerId date)

/-- Translation of `Database.get_stored_dates` (database.py lines 195-206):
the dates of the `summary` rows whose `table_name` and `ticker_id` match. -/
def getStoredDates {α : Type} (s : DBState α) (table : String) (tickerId : Nat) :
    List Nat :=
  (s.summary.filter (fun r => r.1 == table && r.2.1 == tickerId)).map
    (fun r => r.2.2)

/-- Presence of the `(table, tickerId, date)` marker in the `summary` table. -/
def presence {α : Type} (s : DBState α) (table : String) (tickerId date : Nat) :
    Bool :=
  s.summary.contains (table, tickerId, date)

/-- Translation of `Database.get_trades` (database.py lines 274-308): all
tick rows of the given table for the ticker and date, in insertion order. -/
def getTrades {α : Type} (s : DBState α) (table : String) (tickerId date : Nat) :
    List α :=
  (s.ticks.filter
      (fun r => r.1 == table && r.2.1 == tickerId && r.2.2.1 == date)).map
    (fun r => r.2.2.2)

/-- Run of `store_trades` against a store whose connection may drop partway
through the statement sequence.  `failAt = none` is the normal run: every
statement executes durably.  `failAt = some k` models the connection
failing just before the `k`-th statement: the first `k` statements are
durable, the rest are not executed, and the call raises.  Returns the
resulting durable state and whether an exception was raised. -/
def storeTradesRun {α : Type} (s : DBState α) (dataType : String)
    (tickerId date : Nat) (trades : List α) (failAt : Option Nat) :
    DBState α × Bool :=
  let ops := storeTradesOps dataType tickerId date trades
  match failAt with
  | none => (applyOps s ops, false)
  | some k => (applyOps s (ops.take k), true)

end Db

namespace DataManager

open Db

/-- Translation of `get_open_dates` (data_manager.py lines 37-69).  Dates
are day numbers; `d % 7` is Python's `date.weekday()` (0 = Monday, 5 =
Saturday, 6 = Sunday).  `holidays` is the result of
`db.get_holidays(exchange, date_from, date_to)`: pairs `(date, hours)`;
line 55 keeps only those with `hours == 'closed'`.  The loop over
`pd.date_range(date_from, date_to)` (line 57) is the ascending inclusive
range; a date is skipped when its weekday is 5 or 6 (line 59), when it is
in the closed-holiday list (line 62), or when `exclude_future` holds and
`(now - date).days <= 0` (line 65), i.e. the date is today or later. -/
def getOpenDates (holidays : List (Nat × String)) (dateFrom dateTo : Nat)
    (today : Nat) (excludeFuture : Bool) : List Nat :=
  let closed := (holidays.filter (fun h => h.2 == "closed")).map Prod.fst
  (List.range' dateFrom (dateTo + 1 - dateFrom)).filter (fun d =>
    !(decide (5 ≤ d % 7)) && !(decide (d ∈ closed)) &&
      !(excludeFuture && decide (today ≤ d)))

/-- Translation of `dates_missing_from_database` (data_manager.py lines
128-150) for `data_type ∈ {'trades', 'quotes'}`: the open dates of the
range, in order, with the dates already in `stored`
(= `db.get_stored_dates(data_type, ticker)`) removed (line 150). -/
def datesMissingFromDatabase (holidays : List (Nat × String))
    (dateFrom dateTo today : Nat) (stored : List Nat) : List Nat :=
  (getOpenDates holidays dateFrom dateTo today true).filter
    (fun d => !(decide (d ∈ stored)))

/-- Fetch-and-store loop of `download_trades` (data_manager.py lines
184-197).  `api d` is the outcome of `api.get_daily_trades(ticker, d)`:
`none` when that call raised (a failed `_request_batch` surfaces as an
exception — see `ApiManager.requestBatch`), `some rows` on success.
`storeFail d` injects a storage failure into the `store_trades` call for
date `d`, as in `Db.storeTradesRun`.  The loop processes the missing dates
in order; an exception from either the fetch or the store aborts the whole
loop immediately and propagates (no `try` in the source).  Returns the
durable storage state, the propagated exception if any, and the number of
day-fetches issued. -/
def downloadLoop {α : Type} (api : Nat → Option (List α))
    (storeFail : Nat → Option Nat) (dataType : String) (tickerId : Nat) :
    List Nat → DBState α → DBState α × Option PyErr × Nat
  | [], s => (s, none, 0)
  | d :: ds, s =>
    match api d with
    | none => (s, some .apiFailure, 1)
    | some rows =>
      match storeTradesRun s dataType tickerId d rows (storeFail d) with
      | (s', true) => (s', some .dbError, 1)
      | (s', false) =>
        let (s'', e, n) := downloadLoop api storeFail dataType tickerId ds s'
        (s'', e, n + 1)

/-- Translation of `download_trades` (data_manager.py lines 153-197):
compute the missing dates against the presence index (lines 168-170),
return immediately when nothing is missing (lines 173-179), otherwise run
the fetch-and-store loop. -/
def downloadTrades {α : Type} (api : Nat → Option (List α))
    (storeFail : Nat → Option Nat) (dataType : String) (tickerId : Nat)
    (holidays : List (Nat × String)) (dateFrom dateTo today : Nat)
    (s : DBState α) : DBState α × Option PyErr × Nat :=
  let missing := datesMissingFromDatabase holidays dateFrom dateTo today
    (getStoredDates s dataType tickerId)
  downloadLoop api storeFail dataType tickerId missing s

/-- Translation of the accessor `get_trades` (data_manager.py lines
200-234): download any missing dates, then — unless the download raised —
compute the open dates; when there are none, log and `return` (Python
`None`, line 227); otherwise read every open date from the database and
concatenate in date order (lines 230-234).  The second component records a
propagated exception, the third the Python return value. -/
def getTradesAccessor {α : Type} (api : Nat → Option (List α))
    (storeFail : Nat → Option Nat) (dataType : String) (tickerId : Nat)
    (holidays : List (Nat × String)) (dateFrom dateTo today : Nat)
    (s : DBState α) : DBState α × Option PyErr × Option (List α) :=
  match downloadTrades api storeFail dataType tickerId holidays dateFrom
      dateTo today s with
  | (s', some e, _) => (s', some e, none)
  | (s', none, _) =>
    let datesWithTrades := getOpenDates holidays dateFrom dateTo today true
    if datesWithTrades.isEmpty then
      (s', none, none)
    else
      (s', none,
        some (datesWithTrades.flatMap (fun d => getTrades s' dataType tickerId d)))

/-- Quote row extended with the `spread` column that `get_quotes` adds. -/
structure QuoteRowSpread extends QuoteRow where
  spread : Int
  deriving DecidableEq, Repr

/-- Per-row effect of `get_quotes`'s two column operations (data_manager.py
lines 240-241): `spread = ask_price - bid_price`, then rows with a negative
spread are set to `0`. -/
def addSpread (q : QuoteRow) : QuoteRowSpread :=
  { q with
    spread :=
      if q.askPrice - q.bidPrice < 0 then 0 else q.askPrice - q.bidPrice }

/-- Translation of `get_quotes` (data_manager.py lines 237-242): call
`get_trades` with `data_type='quotes'`; then `quotes['spread'] = ...`
subscripts the result — when `get_trades` returned Python `None` (empty
open-date range) this raises `TypeError`; otherwise the spread column is
added and clamped at zero. -/
def getQuotes (api : Nat → Option (List QuoteRow))
    (storeFail : Nat → Option Nat) (tickerId : Nat)
    (holidays : List (Nat × String)) (dateFrom dateTo today : Nat)
    (s : DBState QuoteRow) :
    DBState QuoteRow × Option PyErr × Option (List QuoteRowSpread) :=
  match getTradesAccessor api storeFail "quotes" tickerId holidays dateFrom
      dateTo today s with
  | (s', some e, _) => (s', some e, none)
  | (s', none, none) => (s', some .typeError, none)
  | (s', none, some rows) => (s', none, some (rows.map addSpread))

end DataManager

open ApiManager Db DataManager

/-! Helper lemmas shared by the claim theorems below. -/

/-- Exact shape of the retry recursion when every attempt fails: `k`
retries remain, so `k + 1` attempts happen, each retry preceded by a flat
5-second sleep, and the final result is Python `None`. -/
theorem requestAttempts_all_fail (endpoint : Nat → Response)
    (h : ∀ i, responseOk (endpoint i) = false) :
    ∀ k idx, requestAttempts endpoint k idx = (k + 1, List.replicate k 5, none) := by
  intro k
  induction k with
  | zero => intro idx; simp [requestAttempts, h]
  | succ n ih => intro idx; simp [requestAttempts, h, ih, List.replicate_succ]

/-- From the empty window, any sequence of admissions leaves the window
empty and never stalls: the source never appends an admitted timestamp, and
pruning an empty list yields an empty list whose count `0` is below the
cap. -/
theorem runAdmissions_empty_window (times : List Int) :
    runAdmissions 1 times [] 0 = some ([], 0) := by
  induction times with
  | nil => rfl
  | cons t rest ih =>
    simpa [runAdmissions, stallLoop, countRecentRequests,
      MAX_REQUEST_PER_MINUTE] using ih

/-- Membership in the `summary` table survives any further write. -/
theorem mem_summary_applyOp {α : Type} (s : DBState α) (op : WriteOp α)
    (x : String × Nat × Nat) (h : x ∈ s.summary) : x ∈ (applyOp s op).summary := by
  cases op with
  | summary t i d => simp only [applyOp, List.mem_append]; exact Or.inl h
  | tick t i d r => simpa [applyOp] using h

/-- Membership in the `summary` table survives any statement sequence. -/
theorem mem_summary_applyOps {α : Type} (ops : List (WriteOp α)) :
    ∀ (s : DBState α) (x : String × Nat × Nat),
      x ∈ s.summary → x ∈ (applyOps s ops).summary := by
  induction ops with
  | nil => intro s x h; exact h
  | cons op ops ih =>
    intro s x h
    exact ih (applyOp s op) x (mem_summary_applyOp s op x h)

/-- A completed `store_trades` call leaves the presence row of its own
`(table, ticker, date)` triple in the `summary` table, and keeps every
pre-existing `summary` row. -/
theorem storeTradesRun_summary {α : Type} (s : DBState α) (dt : String)
    (tid d : Nat) (rows : List α) :
    (dt, tid, d) ∈ (storeTradesRun s dt tid d rows none).1.summary ∧
      ∀ x ∈ s.summary, x ∈ (storeTradesRun s dt tid d rows none).1.summary := by
  have hrew : (storeTradesRun s dt tid d rows none).1
      = applyOps (applyOp s (WriteOp.summary dt tid d))
          (rows.map (WriteOp.tick dt tid d)) := rfl
  rw [hrew]
  constructor
  · exact mem_summary_applyOps _ _ _ (by simp [applyOp])
  · intro x hx
    exact mem_summary_applyOps _ _ _ (mem_summary_applyOp s _ x hx)

/-- When every day-fetch succeeds and no storage failure is injected, the
fetch-and-store loop completes without error, performs one fetch per date,
preserves every `summary` row, and adds a presence row for each processed
date. -/
theorem downloadLoop_success {α : Type} (api : Nat → Option (List α))
    (hapi : ∀ d, ∃ r, api d = some r) (dt : String) (tid : Nat) :
    ∀ (ds : List Nat) (s : DBState α),
      (downloadLoop api (fun _ => none) dt tid ds s).2.1 = none ∧
      (downloadLoop api (fun _ => none) dt tid ds s).2.2 = ds.length ∧
      (∀ x ∈ s.summary, x ∈ (downloadLoop api (fun _ => none) dt tid ds s).1.summary) ∧
      (∀ d ∈ ds, (dt, tid, d) ∈ (downloadLoop api (fun _ => none) dt tid ds s).1.summary) := by
  intro ds
  induction ds with
  | nil =>
    intro s
    refine ⟨rfl, rfl, fun x hx => hx, ?_⟩
    intro d hd
    exact absurd hd (List.not_mem_nil d)
  | cons d ds ih =>
    intro s
    obtain ⟨r, hr⟩ := hapi d
    have hstore := storeTradesRun_summary s dt tid d r
    obtain ⟨s', hfail⟩ : ∃ s', storeTradesRun s dt tid d r none = (s', false) :=
      ⟨(storeTradesRun s dt tid d r none).1, rfl⟩
    rw [hfail] at hstore
    have ih' := ih s'
    constructor
    · simp only [downloadLoop, hr, hfail]
      exact ih'.1
    constructor
    · simp only [downloadLoop, hr, hfail]
      simpa using ih'.2.1
    constructor
    · intro x hx
      simp only [downloadLoop, hr, hfail]
      exact ih'.2.2.1 x (hstore.2 x hx)
    · intro d' hd'
      simp only [downloadLoop, hr, hfail]
      rcases List.mem_cons.mp hd' with h | h
      · subst h
        exact ih'.2.2.1 _ hstore.1
      · exact ih'.2.2.2 d' h

/-- Membership in `get_stored_dates` is exactly presence of the summary
row. -/
theorem mem_getStoredDates {α : Type} (s : DBState α) (dt : String)
    (tid d : Nat) :
    d ∈ getStoredDates s dt tid ↔ (dt, tid, d) ∈ s.summary := by
  simp only [getStoredDates, List.mem_map, List.mem_filter]
  constructor
  · rintro ⟨⟨a, b, c⟩, ⟨hmem, heq⟩, rfl⟩
    simp only [Bool.and_eq_true, beq_iff_eq] at heq
    obtain ⟨rfl, rfl⟩ := heq
    exact hmem
  · intro h
    exact ⟨(dt, tid, d), ⟨h, by simp⟩, rfl⟩

/-! Claim theorems. -/

/-- C1: refuted as stated.  The statement sequence of
`Database.store_trades` begins with the `summary` (presence) insertion and
only then inserts the tick rows — the reverse of the claimed order — so at
the reachable intermediate storage state right after the first durable
statement the `PresenceEntry` for the date exists while `read_ticks`
returns none of the day's records: presence does not imply the full record
set was written. -/
theorem store_trades_writes_presence_before_ticks :
    storeTradesOps "trades" 1 100
        [({ timestamp := 0, price := 5, volume := 10 } : TradeRow)]
      = [WriteOp.summary "trades" 1 100,
         WriteOp.tick "trades" 1 100 { timestamp := 0, price := 5, volume := 10 }] ∧
    presence
        (applyOps (DBState.empty TradeRow)
          ((storeTradesOps "trades" 1 100
            [({ timestamp := 0, price := 5, volume := 10 } : TradeRow)]).take 1))
        "trades" 1 100 = true ∧
    getTrades
        (applyOps (DBState.empty TradeRow)
          ((storeTradesOps "trades" 1 100
            [({ timestamp := 0, price := 5, volume := 10 } : TradeRow)]).take 1))
        "trades" 1 100 = [] := by
  exact ⟨rfl, rfl, rfl⟩

/-- C2: refuted as stated.  `_request_batch` evaluates `result[-1]` before
inspecting `results_count`, so a day with zero records raises `IndexError`
after 1 request instead of returning the empty sequence, and a resource
with exactly `page_size` records on page 1 and an empty page 2 raises
`IndexError` after exactly 2 requests instead of returning the
`page_size` records. -/
theorem request_batch_crashes_on_empty_page :
    requestBatch (fun _ => some { results := [], resultsCount := 0 }) 3 5 0
      = (Except.error PyErr.indexError, 1) ∧
    requestBatch
        (fun t =>
          if t == 0 then
            some { results := [{ t := 1 }, { t := 2 }, { t := 3 }], resultsCount := 3 }
          else some { results := [], resultsCount := 0 })
        3 5 0
      = (Except.error PyErr.indexError, 2) := by
  exact ⟨rfl, rfl⟩

/-- C3: refuted as stated.  No statement of `APIManager` ever appends an
admitted request's timestamp to `_recent_requests`; starting from a fresh
instance the window therefore stays empty under any sequence of requests,
`_count_recent_requests` always returns `0`, and 201 requests issued at
the same instant — all inside one 60-second window — are admitted with
zero stalls, contradicting both the claimed append and the claimed
`STALL_INTERVAL` delay before the 201st request. -/
theorem rate_limiter_never_appends_never_stalls :
    runAdmissions 1 (List.replicate (MAX_REQUEST_PER_MINUTE + 1) 0) [] 0
      = some ([], 0) ∧
    (∀ times : List Int, runAdmissions 1 times [] 0 = some ([], 0)) := by
  exact ⟨runAdmissions_empty_window _, runAdmissions_empty_window⟩

/-- C4: confirmed.  For an endpoint whose every attempt fails the
classification test of `_request`, the default budget performs exactly
`MAX_ATTEMPTS = 5` total attempts with a flat 5-second sleep between
consecutive attempts, and the call returns Python `None` (no result). -/
theorem request_retry_bound (endpoint : Nat → Response)
    (h : ∀ i, responseOk (endpoint i) = false) :
    request endpoint = (MAX_ATTEMPTS, [5, 5, 5, 5], none) := by
  have := requestAttempts_all_fail endpoint h (MAX_ATTEMPTS - 1) 0
  simpa [request, MAX_ATTEMPTS] using this

/-- Witness for C4: a server that always answers HTTP 500. -/
theorem request_retry_bound_witness :
    request (fun _ => { status := 500, isList := false, success := true })
      = (MAX_ATTEMPTS, [5, 5, 5, 5], none) :=
  request_retry_bound _ (fun _ => rfl)

/-- C5: confirmed.  The reconciler's missing-date list is exactly the open
dates that are not yet in the presence index, kept in the ascending order
of the date range; for the Mon..Fri range with Wednesday already stored the
result is [Mon, Tue, Thu, Fri], and `download_trades` fetches and stores
those dates in that ascending order (the concrete run appends their
presence rows and tick rows in exactly that sequence). -/
theorem dates_missing_diff_ordered :
    (∀ (hols : List (Nat × String)) (f t today : Nat) (stored : List Nat) (d : Nat),
        d ∈ datesMissingFromDatabase hols f t today stored ↔
          d ∈ getOpenDates hols f t today true ∧ d ∉ stored) ∧
    (∀ (hols : List (Nat × String)) (f t today : Nat) (stored : List Nat),
        (datesMissingFromDatabase hols f t today stored).Pairwise (· < ·)) ∧
    datesMissingFromDatabase [] 0 4 10 [2] = [0, 1, 3, 4] ∧
    downloadTrades
        (fun d => some [({ timestamp := (d : Int), price := 5, volume := 1 } : TradeRow)])
        (fun _ => none) "trades" 1 [] 0 4 10
        ⟨[("trades", 1, 2)], [("trades", 1, 2, { timestamp := 99, price := 9, volume := 9 })]⟩
      = (⟨[("trades", 1, 2), ("trades", 1, 0), ("trades", 1, 1),
            ("trades", 1, 3), ("trades", 1, 4)],
          [("trades", 1, 2, { timestamp := 99, price := 9, volume := 9 }),
           ("trades", 1, 0, { timestamp := 0, price := 5, volume := 1 }),
           ("trades", 1, 1, { timestamp := 1, price := 5, volume := 1 }),
           ("trades", 1, 3, { timestamp := 3, price := 5, volume := 1 }),
           ("trades", 1, 4, { timestamp := 4, price := 5, volume := 1 })]⟩,
         none, 4) := by
  refine ⟨?_, ?_, rfl, rfl⟩
  · intro hols f t today stored d
    simp [datesMissingFromDatabase, List.mem_filter]
  · intro hols f t today stored
    have hs1 : List.Sublist (datesMissingFromDatabase hols f t today stored)
        (getOpenDates hols f t today true) := List.filter_sublist _
    have hs2 : List.Sublist (getOpenDates hols f t today true)
        (List.range' f (t + 1 - f)) := List.filter_sublist _
    exact (((List.pairwise_lt_range' f (t + 1 - f)).sublist hs2).sublist hs1)

/-- C6: confirmed.  Every date produced by `get_open_dates` with the
default `exclude_future = True` has a weekday below 5 (so never a Saturday
or Sunday), is not listed as a `closed` holiday, and is strictly before
today; and a `half` holiday inside the range is not excluded. -/
theorem get_open_dates_exclusions :
    (∀ (hols : List (Nat × String)) (f t today d : Nat),
        d ∈ getOpenDates hols f t today true →
          d % 7 < 5 ∧ (d, "closed") ∉ hols ∧ d < today) ∧
    getOpenDates [(2, "half")] 0 4 10 true = [0, 1, 2, 3, 4] := by
  constructor
  · intro hols f t today d hd
    unfold getOpenDates at hd
    simp only [List.mem_filter, Bool.and_eq_true, Bool.not_eq_true',
      decide_eq_false_iff_not, Bool.true_and] at hd
    obtain ⟨-, ⟨hw, hc⟩, hf⟩ := hd
    refine ⟨by omega, ?_, by omega⟩
    intro hmem
    exact hc (List.mem_map.mpr ⟨(d, "closed"),
      List.mem_filter.mpr ⟨hmem, by simp⟩, rfl⟩)
  · rfl

/-- Witness for C6 at a concrete input: the date 1 (a Tuesday) of the range
0..4 with no holidays and today = 10. -/
theorem get_open_dates_exclusions_witness :
    1 % 7 < 5 ∧ (1, "closed") ∉ ([] : List (Nat × String)) ∧ 1 < 10 :=
  get_open_dates_exclusions.1 [] 0 4 10 1 (by decide)

/-- C7: refuted as stated for storage failures.  In a two-date run where
the very first SQL statement of `store_trades` (the presence insertion)
succeeds durably and the subsequent tick insertion fails, the request does
abort with a surfaced failure and the later date is never fetched (1 fetch
only) — but the failed date's presence row is already durable while zero
of its records are, so a partial day *is* persisted as complete. -/
theorem download_aborts_but_marks_partial_day :
    downloadLoop
        (fun d => some [({ timestamp := (d : Int), price := 5, volume := 1 } : TradeRow)])
        (fun d => if d == 0 then some 1 else none) "trades" 1 [0, 1]
        (DBState.empty TradeRow)
      = (⟨[("trades", 1, 0)], []⟩, some PyErr.dbError, 1) ∧
    presence (⟨[("trades", 1, 0)], []⟩ : DBState TradeRow) "trades" 1 0 = true ∧
    getTrades (⟨[("trades", 1, 0)], []⟩ : DBState TradeRow) "trades" 1 0 = [] := by
  exact ⟨rfl, rfl, rfl⟩

/-- C8: confirmed.  When every day-fetch of the first call succeeds and
storage does not fail, the first `download_trades` call completes without
error, and calling it again for the same range against the resulting
storage state finds an empty missing set and performs zero fetches,
returning immediately with the state unchanged. -/
theorem download_trades_idempotent {α : Type} (api : Nat → Option (List α))
    (dt : String) (tid : Nat) (hols : List (Nat × String))
    (f t today : Nat) (s₀ : DBState α)
    (hapi : ∀ d, ∃ r, api d = some r) :
    (downloadTrades api (fun _ => none) dt tid hols f t today s₀).2.1 = none ∧
    downloadTrades api (fun _ => none) dt tid hols f t today
        (downloadTrades api (fun _ => none) dt tid hols f t today s₀).1
      = ((downloadTrades api (fun _ => none) dt tid hols f t today s₀).1, none, 0) := by
  have hloop := downloadLoop_success api hapi dt tid
    (datesMissingFromDatabase hols f t today (getStoredDates s₀ dt tid)) s₀
  refine ⟨hloop.1, ?_⟩
  have hstored : ∀ d ∈ getOpenDates hols f t today true,
      (dt, tid, d) ∈
        (downloadTrades api (fun _ => none) dt tid hols f t today s₀).1.summary := by
    intro d hd
    by_cases hmem : d ∈ getStoredDates s₀ dt tid
    · exact hloop.2.2.1 _ ((mem_getStoredDates s₀ dt tid d).mp hmem)
    · have hd' : d ∈ datesMissingFromDatabase hols f t today
          (getStoredDates s₀ dt tid) := by
        unfold datesMissingFromDatabase
        exact List.mem_filter.mpr ⟨hd, by simp [hmem]⟩
      exact hloop.2.2.2 d hd'
  have hmissing : datesMissingFromDatabase hols f t today
      (getStoredDates
        (downloadTrades api (fun _ => none) dt tid hols f t today s₀).1 dt tid) = [] := by
    unfold datesMissingFromDatabase
    apply List.filter_eq_nil_iff.mpr
    intro d hd
    simp [mem_getStoredDates, hstored d hd]
  show downloadLoop api (fun _ => none) dt tid
      (datesMissingFromDatabase hols f t today
        (getStoredDates
          (downloadTrades api (fun _ => none) dt tid hols f t today s₀).1 dt tid))
      (downloadTrades api (fun _ => none) dt tid hols f t today s₀).1 = _
  rw [hmissing]
  rfl

/-- Witness for C8: two weekdays, an always-succeeding fetch, an initially
empty store. -/
theorem download_trades_idempotent_witness :
    (downloadTrades
        (fun d => some [({ timestamp := (d : Int), price := 5, volume := 1 } : TradeRow)])
        (fun _ => none) "trades" 1 [] 0 1 10 (DBState.empty TradeRow)).2.1 = none ∧
    downloadTrades
        (fun d => some [({ timestamp := (d : Int), price := 5, volume := 1 } : TradeRow)])
        (fun _ => none) "trades" 1 [] 0 1 10
        (downloadTrades
          (fun d => some [({ timestamp := (d : Int), price := 5, volume := 1 } : TradeRow)])
          (fun _ => none) "trades" 1 [] 0 1 10 (DBState.empty TradeRow)).1
      = ((downloadTrades
            (fun d => some [({ timestamp := (d : Int), price := 5, volume := 1 } : TradeRow)])
            (fun _ => none) "trades" 1 [] 0 1 10 (DBState.empty TradeRow)).1,
         none, 0) :=
  download_trades_idempotent _ "trades" 1 [] 0 1 10 (DBState.empty TradeRow)
    (fun _ => ⟨_, rfl⟩)

/-- C9: confirmed.  On a range whose open-date set is empty, the accessor
`get_trades` returns Python `None` (no empty table, no exception), and
`get_quotes`, which immediately subscripts that result to add the spread
column, raises `TypeError` instead of returning an empty table. -/
theorem get_trades_none_on_empty_range (api : Nat → Option (List QuoteRow))
    (storeFail : Nat → Option Nat) (tid : Nat) (hols : List (Nat × String))
    (f t today : Nat) (s : DBState QuoteRow)
    (h : getOpenDates hols f t today true = []) :
    getTradesAccessor api storeFail "quotes" tid hols f t today s
      = (s, none, none) ∧
    getQuotes api storeFail tid hols f t today s
      = (s, some PyErr.typeError, none) := by
  have hacc : getTradesAccessor api storeFail "quotes" tid hols f t today s
      = (s, none, none) := by
    simp [getTradesAccessor, downloadTrades, datesMissingFromDatabase, h,
      downloadLoop]
  exact ⟨hacc, by simp [getQuotes, hacc]⟩

/-- Witness for C9: the weekend-only range 5..6 (a Saturday and a Sunday)
against an empty store. -/
theorem get_trades_none_on_empty_range_witness :
    getTradesAccessor (fun _ => (none : Option (List QuoteRow))) (fun _ => none)
        "quotes" 1 [] 5 6 10 (DBState.empty QuoteRow)
      = (DBState.empty QuoteRow, none, none) ∧
    getQuotes (fun _ => none) (fun _ => none) 1 [] 5 6 10 (DBState.empty QuoteRow)
      = (DBState.empty QuoteRow, some PyErr.typeError, none) :=
  get_trades_none_on_empty_range _ _ _ _ _ _ _ _ rfl

/-- C10: confirmed.  Every row of a DataFrame returned by `get_quotes`
carries `spread = max (ask_price - bid_price) 0`; in particular the spread
is never negative, even when the stored quote is crossed
(`bid_price > ask_price`). -/
theorem get_quotes_spread_clamped (api : Nat → Option (List QuoteRow))
    (storeFail : Nat → Option Nat) (tid : Nat) (hols : List (Nat × String))
    (f t today : Nat) (s s' : DBState QuoteRow) (out : List QuoteRowSpread)
    (h : getQuotes api storeFail tid hols f t today s = (s', none, some out)) :
    ∀ q ∈ out, q.spread = max (q.askPrice - q.bidPrice) 0 ∧ 0 ≤ q.spread := by
  unfold getQuotes at h
  rcases hacc : getTradesAccessor api storeFail "quotes" tid hols f t today s
    with ⟨s'', e, res⟩
  rw [hacc] at h
  rcases e with _ | e
  · rcases res with _ | rows
    · simp at h
    · simp only [Prod.mk.injEq, Option.some.injEq] at h
      obtain ⟨-, -, hout⟩ := h
      subst hout
      intro q hq
      obtain ⟨r, hr, rfl⟩ := List.mem_map.mp hq
      constructor
      · show (if r.askPrice - r.bidPrice < 0 then 0 else r.askPrice - r.bidPrice)
            = max (r.askPrice - r.bidPrice) 0
        rcases lt_or_le (r.askPrice - r.bidPrice) 0 with hlt | hle
        · rw [if_pos hlt, max_eq_right hlt.le]
        · rw [if_neg (not_lt.mpr hle), max_eq_left hle]
      · show (0 : Int) ≤ if r.askPrice - r.bidPrice < 0 then 0
            else r.askPrice - r.bidPrice
        rcases lt_or_le (r.askPrice - r.bidPrice) 0 with hlt | hle
        · rw [if_pos hlt]
        · rw [if_neg (not_lt.mpr hle)]; exact hle
  · simp at h

/-- Witness for C10: a stored crossed quote (bid 12 above ask 10) on one
open stored date; its returned spread is 0, not -2. -/
theorem get_quotes_spread_clamped_witness :
    ({ toQuoteRow :=
        { timestamp := 7, askPrice := 10, askVolume := 1,
          bidPrice := 12, bidVolume := 1 },
       spread := 0 } : QuoteRowSpread).spread
      = max ((10 : Int) - 12) 0 ∧
    (0 : Int) ≤
      ({ toQuoteRow :=
          { timestamp := 7, askPrice := 10, askVolume := 1,
            bidPrice := 12, bidVolume := 1 },
         spread := 0 } : QuoteRowSpread).spread :=
  get_quotes_spread_clamped (fun _ => none) (fun _ => none) 1 [] 0 0 10
    ⟨[("quotes", 1, 0)],
     [("quotes", 1, 0,
       { timestamp := 7, askPrice := 10, askVolume := 1,
         bidPrice := 12, bidVolume := 1 })]⟩
    ⟨[("quotes", 1, 0)],
     [("quotes", 1, 0,
       { timestamp := 7, askPrice := 10, askVolume := 1,
         bidPrice := 12, bidVolume := 1 })]⟩
    [{ toQuoteRow :=
        { timestamp := 7, askPrice := 10, askVolume := 1,
          bidPrice := 12, bidVolume := 1 },
       spread := 0 }]
    rfl _ (by simp)
